import Mathlib

/-!
Verification development for the `observe-rs` metrics façade.

The definitions below are a shallow embedding of the repository's core:
the Prometheus (exposition-format) backend with its registration-time
validation (`src/backends/prometheus/prometheus_backend.rs`), the mock
backend (`src/backends/mock.rs`), the `Metric` named wrapper
(`src/core/metrics.rs`) and the generic `ObservabilityRegistry`
(`src/core/registry.rs`).

Machine integers are modelled as `Nat`/`Int` with explicit reduction
modulo `2 ^ 64` where Rust's wrapping atomics make overflow observable.
`f64` values are modelled by the inductive `F64`: a finite double is an
exact rational, plus the two infinities and NaN, with IEEE comparison
semantics (NaN compares false under `<` and `<=`).  Fallible Rust
functions returning `Result` are embedded as `Except`; functions taking
`&mut Registry` are embedded in state-passing style, returning the
(possibly unchanged) registry alongside the `Except` result.
-/

/-- Model of IEEE-754 double values as used by the repository: finite
doubles are exact rationals; NaN and the infinities are explicit. -/
inductive F64 where
  | nan : F64
  | posInf : F64
  | negInf : F64
  | finite : Rat → F64
deriving DecidableEq

/-- Model of Rust `f64::is_finite`. -/
def F64.isFinite : F64 → Bool
  | .finite _ => true
  | _ => false

/-- IEEE strict less-than on doubles: any comparison with NaN is false. -/
def F64.lt : F64 → F64 → Bool
  | .nan, _ => false
  | _, .nan => false
  | .negInf, .negInf => false
  | .negInf, _ => true
  | _, .negInf => false
  | .posInf, _ => false
  | .finite _, .posInf => true
  | .finite a, .finite b => a < b

/-- IEEE less-than-or-equal on doubles: any comparison with NaN is false. -/
def F64.le : F64 → F64 → Bool
  | .nan, _ => false
  | _, .nan => false
  | .negInf, _ => true
  | _, .negInf => false
  | _, .posInf => true
  | .posInf, .finite _ => false
  | .finite a, .finite b => a ≤ b

/-- Error type of the exposition backend
(`PrometheusError` in `prometheus_backend.rs`). -/
inductive PrometheusError where
  | RegistrationError : String → PrometheusError
  | InvalidNamingConvention : String → PrometheusError
  | InvalidHistogramBuckets : String → PrometheusError
deriving DecidableEq

/-- First character of a Prometheus metric name: letter or underscore only
(`is_valid_first_char`). -/
def is_valid_first_char (c : Char) : Bool :=
  c.isAlpha || c == '_'

/-- Subsequent characters: letter, digit, or underscore
(`is_valid_subsequent_char`). -/
def is_valid_subsequent_char (c : Char) : Bool :=
  c.isAlphanum || c == '_'

/-- The `for c in chars` loop of `validate_prometheus_metric_name`:
returns the first error among the remaining characters. -/
def validate_subsequent_chars : List Char → Except PrometheusError Unit
  | [] => .ok ()
  | c :: cs =>
    if !is_valid_subsequent_char c then
      .error (.InvalidNamingConvention
        "metric name may only contain letters, digits and underscore")
    else
      validate_subsequent_chars cs

/-- `validate_prometheus_metric_name`: names must match
`[a-zA-Z_][a-zA-Z0-9_]*` and be non-empty. -/
def validate_prometheus_metric_name (name : String) : Except PrometheusError Unit :=
  match name.data with
  | [] => .error (.InvalidNamingConvention "metric name cannot be empty")
  | first :: rest =>
    if !is_valid_first_char first then
      .error (.InvalidNamingConvention "metric name must start with a letter or underscore")
    else
      validate_subsequent_chars rest

/-- The `for (i, b)` loop of `validate_histogram_buckets`, carrying the
previously inspected bucket (`buckets[i-1]`, absent at index 0). -/
def validate_buckets_from (prev : Option F64) : List F64 → Except PrometheusError Unit
  | [] => .ok ()
  | b :: rest =>
    if !b.isFinite then
      .error (.InvalidHistogramBuckets "bucket is not finite")
    else if F64.lt b (.finite 0) then
      .error (.InvalidHistogramBuckets "bucket is negative")
    else
      match prev with
      | some p =>
        if F64.le b p then
          .error (.InvalidHistogramBuckets "buckets must be strictly increasing")
        else
          validate_buckets_from (some b) rest
      | none => validate_buckets_from (some b) rest

/-- `validate_histogram_buckets`: buckets must be finite, non-negative,
and strictly increasing. -/
def validate_histogram_buckets (buckets : List F64) : Except PrometheusError Unit :=
  validate_buckets_from none buckets

/-- A `prometheus_client` histogram handle: created with a fixed bucket
list, records observations (`Histogram::new` / `Histogram::observe`). -/
structure PromHistogram where
  buckets : List F64
  observations : List F64
deriving DecidableEq

/-- `Histogram::new(buckets)`. -/
def PromHistogram.new (buckets : List F64) : PromHistogram :=
  ⟨buckets, []⟩

/-- `Histogram::observe(value)`. -/
def PromHistogram.observe (h : PromHistogram) (value : F64) : PromHistogram :=
  { h with observations := h.observations ++ [value] }

/-- An instrument as stored in the backend registry. -/
inductive RegisteredMetric where
  | counter : Nat → RegisteredMetric
  | gauge : Int → RegisteredMetric
  | histogram : PromHistogram → RegisteredMetric
deriving DecidableEq

/-- The `prometheus_client::registry::Registry` storage, modelled as the
ordered list of `(name, help, instrument)` registrations it has accepted. -/
structure Registry where
  entries : List (String × String × RegisteredMetric)
deriving DecidableEq

/-- `Registry::default()`: an empty registry (`create_registry`). -/
def Registry.new : Registry := ⟨[]⟩

/-- `Registry::register(name, help, metric)` of the `prometheus_client`
crate (external to this repository): records the instrument under the
given name.  Only the fact that it adds exactly one entry matters here. -/
def Registry.register (r : Registry) (name help : String) (m : RegisteredMetric) : Registry :=
  ⟨r.entries ++ [(name, help, m)]⟩

/-- `PrometheusBackend::register_counter`: validates the name, then
creates a `Counter::default()` (value 0) and registers a clone of it. -/
def PrometheusBackend.register_counter (r : Registry) (name help : String) :
    Except PrometheusError Nat × Registry :=
  match validate_prometheus_metric_name name with
  | .error e => (.error e, r)
  | .ok _ => (.ok 0, r.register name help (.counter 0))

/-- `PrometheusBackend::register_gauge`: validates the name, then creates
a `Gauge::default()` (value 0) and registers a clone of it. -/
def PrometheusBackend.register_gauge (r : Registry) (name help : String) :
    Except PrometheusError Int × Registry :=
  match validate_prometheus_metric_name name with
  | .error e => (.error e, r)
  | .ok _ => (.ok 0, r.register name help (.gauge 0))

/-- `PrometheusBackend::register_histogram`: validates the name, then the
buckets, then creates `Histogram::new(buckets)` and registers a clone. -/
def PrometheusBackend.register_histogram (r : Registry) (name help : String)
    (buckets : List F64) : Except PrometheusError PromHistogram × Registry :=
  match validate_prometheus_metric_name name with
  | .error e => (.error e, r)
  | .ok _ =>
    match validate_histogram_buckets buckets with
    | .error e => (.error e, r)
    | .ok _ =>
      (.ok (PromHistogram.new buckets),
        r.register name help (.histogram (PromHistogram.new buckets)))

/-- Is the result a success? (`Result::is_ok`.) -/
def exceptIsOk {ε α : Type} : Except ε α → Bool
  | .ok _ => true
  | .error _ => false

/-- Is the result an `InvalidNamingConvention`-typed error? -/
def isInvalidNameError {α : Type} : Except PrometheusError α → Bool
  | .error (.InvalidNamingConvention _) => true
  | _ => false

/-- Is the result an `InvalidHistogramBuckets`-typed error? -/
def isInvalidBucketsError {α : Type} : Except PrometheusError α → Bool
  | .error (.InvalidHistogramBuckets _) => true
  | _ => false

/-- Spec-side first-character class of the exposition name grammar
`[A-Za-z_]` (ASCII codes 65-90, 97-122, 95). -/
def specNameFirstChar (c : Char) : Bool :=
  (65 ≤ c.val && c.val ≤ 90) || (97 ≤ c.val && c.val ≤ 122) || c.val == 95

/-- Spec-side subsequent-character class `[A-Za-z0-9_]` (additionally
ASCII codes 48-57). -/
def specNameRestChar (c : Char) : Bool :=
  specNameFirstChar c || (48 ≤ c.val && c.val ≤ 57)

/-- Spec-side name grammar: `[A-Za-z_][A-Za-z0-9_]*`, non-empty. -/
def specNameGrammar (name : String) : Bool :=
  match name.data with
  | [] => false
  | c :: cs => specNameFirstChar c && cs.all specNameRestChar

/-- Spec-side adjacent strict increase of a bucket list. -/
def specChainLt : List F64 → Bool
  | [] => true
  | [_] => true
  | a :: b :: rest => F64.lt a b && specChainLt (b :: rest)

/-- Spec-side bucket validity: all finite, none negative, strictly
increasing (the empty list is legal). -/
def specBucketsOk (l : List F64) : Bool :=
  l.all F64.isFinite && l.all (fun b => !F64.lt b (.finite 0)) && specChainLt l

/-- The code's first-character test is exactly the spec's `[A-Za-z_]`. -/
theorem char_beq_underscore_val (c : Char) : (c == '_') = (c.val == 95) := by
  simp [beq_iff_eq, Char.ext_iff]

theorem first_char_class_eq (c : Char) : is_valid_first_char c = specNameFirstChar c := by
  simp [is_valid_first_char, specNameFirstChar, Char.isAlpha, Char.isUpper, Char.isLower,
    ge_iff_le, char_beq_underscore_val]

theorem rest_char_class_eq (c : Char) : is_valid_subsequent_char c = specNameRestChar c := by
  simp only [is_valid_subsequent_char, specNameRestChar, specNameFirstChar, Char.isAlphanum,
    Char.isAlpha, Char.isUpper, Char.isLower, Char.isDigit, ge_iff_le, char_beq_underscore_val]
  ac_rfl

theorem validate_subsequent_ok_iff (cs : List Char) :
    (validate_subsequent_chars cs = .ok ()) ↔ cs.all is_valid_subsequent_char = true := by
  induction cs with
  | nil => simp [validate_subsequent_chars]
  | cons c cs ih =>
    by_cases h : is_valid_subsequent_char c = true
    · simp [validate_subsequent_chars, h, ih]
    · simp [validate_subsequent_chars, h]

theorem validate_subsequent_err (cs : List Char) :
    validate_subsequent_chars cs = .ok ()
      ∨ isInvalidNameError (validate_subsequent_chars cs) = true := by
  induction cs with
  | nil => simp [validate_subsequent_chars]
  | cons c cs ih =>
    by_cases h : is_valid_subsequent_char c = true
    · simpa [validate_subsequent_chars, h] using ih
    · simp [validate_subsequent_chars, h, isInvalidNameError]

/-- `validate_prometheus_metric_name` accepts exactly the spec grammar
`[A-Za-z_][A-Za-z0-9_]*` on a non-empty name. -/
theorem validate_name_ok_iff (name : String) :
    (validate_prometheus_metric_name name = .ok ()) ↔ specNameGrammar name = true := by
  unfold validate_prometheus_metric_name specNameGrammar
  match name.data with
  | [] => simp
  | first :: rest =>
    by_cases h : is_valid_first_char first = true
    · have hs := first_char_class_eq first
      have hr : rest.all specNameRestChar = rest.all is_valid_subsequent_char := by
        simp [List.all_eq, rest_char_class_eq]
      simp [h, hs ▸ h, validate_subsequent_ok_iff, hr]
    · have hs := first_char_class_eq first
      simp [h, hs ▸ h]

/-- `validate_prometheus_metric_name` never fails with anything but an
`InvalidNamingConvention` error. -/
theorem validate_name_err (name : String) :
    validate_prometheus_metric_name name = .ok ()
      ∨ isInvalidNameError (validate_prometheus_metric_name name) = true := by
  unfold validate_prometheus_metric_name
  match name.data with
  | [] => simp [isInvalidNameError]
  | first :: rest =>
    by_cases h : is_valid_first_char first = true
    · simpa [h] using validate_subsequent_err rest
    · simp [h, isInvalidNameError]

/-- The registration functions fail exactly when name validation fails,
with the same error. -/
theorem register_counter_fst (r : Registry) (name help : String) :
    (PrometheusBackend.register_counter r name help).1
      = (validate_prometheus_metric_name name).map (fun _ => 0) := by
  unfold PrometheusBackend.register_counter
  cases validate_prometheus_metric_name name <;> rfl

theorem register_gauge_fst (r : Registry) (name help : String) :
    (PrometheusBackend.register_gauge r name help).1
      = (validate_prometheus_metric_name name).map (fun _ => (0 : Int)) := by
  unfold PrometheusBackend.register_gauge
  cases validate_prometheus_metric_name name <;> rfl

theorem register_histogram_fst_of_name_err (r : Registry) (name help : String)
    (buckets : List F64) (e : PrometheusError)
    (h : validate_prometheus_metric_name name = .error e) :
    (PrometheusBackend.register_histogram r name help buckets).1 = .error e := by
  unfold PrometheusBackend.register_histogram
  rw [h]

/-- Claim C1: registering a counter, gauge, or histogram with the
Prometheus exposition backend succeeds exactly when the metric name
matches `[A-Za-z_][A-Za-z0-9_]*` (non-empty), and fails with an
`InvalidNamingConvention`-typed error otherwise; in particular "",
"123bad" and "my-metric" are rejected with that error while
"http_requests_total" and "_" are accepted. -/
theorem C1_prometheus_name_validation (r : Registry) (name help : String) :
    (exceptIsOk (PrometheusBackend.register_counter r name help).1 = specNameGrammar name)
    ∧ (exceptIsOk (PrometheusBackend.register_gauge r name help).1 = specNameGrammar name)
    ∧ (exceptIsOk (PrometheusBackend.register_histogram r name help []).1 = specNameGrammar name)
    ∧ (specNameGrammar name = false →
        isInvalidNameError (PrometheusBackend.register_counter r name help).1 = true
        ∧ isInvalidNameError (PrometheusBackend.register_gauge r name help).1 = true
        ∧ ∀ buckets : List F64,
            isInvalidNameError (PrometheusBackend.register_histogram r name help buckets).1 = true)
    ∧ isInvalidNameError (PrometheusBackend.register_counter Registry.new "" "h").1 = true
    ∧ isInvalidNameError (PrometheusBackend.register_counter Registry.new "123bad" "h").1 = true
    ∧ isInvalidNameError (PrometheusBackend.register_counter Registry.new "my-metric" "h").1 = true
    ∧ exceptIsOk (PrometheusBackend.register_counter Registry.new "http_requests_total" "h").1 = true
    ∧ exceptIsOk (PrometheusBackend.register_counter Registry.new "_" "h").1 = true := by
  have hmain : ∀ s : String, exceptIsOk ((validate_prometheus_metric_name s).map
      (fun _ : Unit => (0 : Nat))) = specNameGrammar s := by
    intro s
    rcases hv : validate_prometheus_metric_name s with e | u
    · have : ¬ (validate_prometheus_metric_name s = .ok ()) := by simp [hv]
      have hg := (not_iff_not.mpr (validate_name_ok_iff s)).mp this
      simp [Except.map, hg, exceptIsOk]
    · obtain ⟨⟩ := u
      have hg := (validate_name_ok_iff s).mp hv
      simp [Except.map, hg, exceptIsOk]
  have hmainInt : ∀ s : String, exceptIsOk ((validate_prometheus_metric_name s).map
      (fun _ : Unit => (0 : Int))) = specNameGrammar s := by
    intro s
    rcases hv : validate_prometheus_metric_name s with e | u
    · have : ¬ (validate_prometheus_metric_name s = .ok ()) := by simp [hv]
      have hg := (not_iff_not.mpr (validate_name_ok_iff s)).mp this
      simp [Except.map, hg, exceptIsOk]
    · obtain ⟨⟩ := u
      have hg := (validate_name_ok_iff s).mp hv
      simp [Except.map, hg, exceptIsOk]
  have herr : specNameGrammar name = false →
      ∃ msg, validate_prometheus_metric_name name = .error (.InvalidNamingConvention msg) := by
    intro hfalse
    rcases validate_name_err name with hok | hinv
    · have := (validate_name_ok_iff name).mp hok
      rw [this] at hfalse
      exact absurd hfalse (by simp)
    · rcases hv : validate_prometheus_metric_name name with e | u
      · rw [hv] at hinv
        cases e with
        | RegistrationError m => simp [isInvalidNameError] at hinv
        | InvalidNamingConvention m => exact ⟨m, rfl⟩
        | InvalidHistogramBuckets m => simp [isInvalidNameError] at hinv
      · rw [hv] at hinv
        simp [isInvalidNameError] at hinv
  refine ⟨?_, ?_, ?_, ?_, by decide, by decide, by decide, by decide, by decide⟩
  · rw [register_counter_fst]; exact hmain name
  · rw [register_gauge_fst]; exact hmainInt name
  · rcases hv : validate_prometheus_metric_name name with e | u
    · have hfst := register_histogram_fst_of_name_err r name help [] e hv
      have : ¬ (validate_prometheus_metric_name name = .ok ()) := by simp [hv]
      have hg := (not_iff_not.mpr (validate_name_ok_iff name)).mp this
      simp [hfst, hg, exceptIsOk]
    · obtain ⟨⟩ := u
      have hg := (validate_name_ok_iff name).mp hv
      unfold PrometheusBackend.register_histogram
      rw [hv]
      simp [validate_histogram_buckets, validate_buckets_from, hg, exceptIsOk]
  · intro hfalse
    obtain ⟨msg, hv⟩ := herr hfalse
    refine ⟨?_, ?_, ?_⟩
    · rw [register_counter_fst, hv]; rfl
    · rw [register_gauge_fst, hv]; rfl
    · intro buckets
      rw [register_histogram_fst_of_name_err r name help buckets _ hv]
      rfl

/-- Concrete instantiation of claim C1 discharging its hypotheses at
name "123bad". -/
theorem C1_prometheus_name_validation_witness :
    specNameGrammar "123bad" = false
    ∧ isInvalidNameError
        (PrometheusBackend.register_counter Registry.new "123bad" "h").1 = true := by
  refine ⟨by decide, ?_⟩
  exact (((C1_prometheus_name_validation Registry.new "123bad" "h").2.2.2.1 (by decide)).1)

/-- Bucket-loop characterization with a finite previous bucket: the
remaining checks succeed exactly when all remaining buckets are finite,
non-negative, and the chain from the previous bucket strictly increases. -/
theorem validate_buckets_some_ok_iff (l : List F64) : ∀ p : Rat,
    (validate_buckets_from (some (.finite p)) l = .ok ()) ↔
      (l.all F64.isFinite && l.all (fun b => !F64.lt b (.finite 0))
        && specChainLt (.finite p :: l)) = true := by
  induction l with
  | nil => intro p; simp [validate_buckets_from, specChainLt]
  | cons b rest ih =>
    intro p
    cases b with
    | nan => simp [validate_buckets_from, F64.isFinite]
    | posInf => simp [validate_buckets_from, F64.isFinite]
    | negInf => simp [validate_buckets_from, F64.isFinite]
    | finite q =>
      by_cases hneg : q < 0
      · simp [validate_buckets_from, F64.isFinite, F64.lt, hneg]
      · by_cases hle : q ≤ p
        · have hnotlt : ¬ p < q := not_lt.mpr hle
          simp [validate_buckets_from, F64.isFinite, F64.lt, F64.le, hneg, hle,
            specChainLt, hnotlt]
        · have hlt : p < q := lt_of_not_le hle
          have := ih q
          simp only [validate_buckets_from, F64.isFinite, F64.lt, F64.le,
            Bool.not_true, Bool.false_eq_true, if_false] at *
          simp [hneg, hle, this, specChainLt, hlt, F64.lt]
          tauto

/-- `validate_histogram_buckets` accepts exactly the spec-side bucket
validity condition (all finite, none negative, strictly increasing). -/
theorem validate_buckets_ok_iff (l : List F64) :
    (validate_histogram_buckets l = .ok ()) ↔ specBucketsOk l = true := by
  unfold validate_histogram_buckets specBucketsOk
  cases l with
  | nil => simp [validate_buckets_from, specChainLt]
  | cons b rest =>
    cases b with
    | nan => simp [validate_buckets_from, F64.isFinite]
    | posInf => simp [validate_buckets_from, F64.isFinite]
    | negInf => simp [validate_buckets_from, F64.isFinite]
    | finite q =>
      by_cases hneg : q < 0
      · simp [validate_buckets_from, F64.isFinite, F64.lt, hneg]
      · have := validate_buckets_some_ok_iff rest q
        simp only [validate_buckets_from, F64.isFinite, F64.lt,
          Bool.not_true, Bool.false_eq_true, if_false] at *
        simp [hneg, this]
        tauto

/-- `validate_histogram_buckets` never fails with anything but an
`InvalidHistogramBuckets` error. -/
theorem validate_buckets_err (l : List F64) : ∀ prev : Option F64,
    validate_buckets_from prev l = .ok ()
      ∨ isInvalidBucketsError (validate_buckets_from prev l) = true := by
  induction l with
  | nil => intro prev; simp [validate_buckets_from]
  | cons b rest ih =>
    intro prev
    by_cases hf : b.isFinite = true
    · by_cases hneg : F64.lt b (.finite 0) = true
      · simp [validate_buckets_from, hf, hneg, isInvalidBucketsError]
      · cases prev with
        | none => simpa [validate_buckets_from, hf, hneg] using ih (some b)
        | some p =>
          by_cases hle : F64.le b p = true
          · simp [validate_buckets_from, hf, hneg, hle, isInvalidBucketsError]
          · simpa [validate_buckets_from, hf, hneg, hle] using ih (some b)
    · simp [validate_buckets_from, hf, isInvalidBucketsError]


/-- Claim C2: `register_histogram` on the Prometheus backend (given a
valid metric name) accepts a bucket list exactly when all buckets are
finite, non-negative and strictly increasing, and otherwise fails with an
`InvalidHistogramBuckets`-typed error; in particular `[1.0, 0.5, 2.0]`,
`[-1.0, 1.0]` and `[NaN, 1.0]` are rejected and `[]` is accepted. -/
theorem C2_prometheus_bucket_validation (r : Registry) (name help : String)
    (buckets : List F64) (hname : validate_prometheus_metric_name name = .ok ()) :
    (exceptIsOk (PrometheusBackend.register_histogram r name help buckets).1
      = specBucketsOk buckets)
    ∧ (specBucketsOk buckets = false →
        isInvalidBucketsError (PrometheusBackend.register_histogram r name help buckets).1
          = true)
    ∧ isInvalidBucketsError (PrometheusBackend.register_histogram Registry.new "h" "help"
        [.finite 1, .finite 0.5, .finite 2]).1 = true
    ∧ isInvalidBucketsError (PrometheusBackend.register_histogram Registry.new "h" "help"
        [.finite (-1), .finite 1]).1 = true
    ∧ isInvalidBucketsError (PrometheusBackend.register_histogram Registry.new "h" "help"
        [.nan, .finite 1]).1 = true
    ∧ exceptIsOk (PrometheusBackend.register_histogram Registry.new "h" "help" []).1
        = true := by
  have hn : validate_prometheus_metric_name "h" = .ok () := rfl
  refine ⟨?_, ?_, ?_, ?_, ?_, ?_⟩
  · unfold PrometheusBackend.register_histogram
    rw [hname]
    rcases hb : validate_histogram_buckets buckets with e | u
    · have : ¬ (validate_histogram_buckets buckets = .ok ()) := by simp [hb]
      have hg := (not_iff_not.mpr (validate_buckets_ok_iff buckets)).mp this
      simp [hg, exceptIsOk]
    · obtain ⟨⟩ := u
      have hg := (validate_buckets_ok_iff buckets).mp hb
      simp [hg, exceptIsOk]
  · intro hfalse
    have hmsg : ∃ msg, validate_histogram_buckets buckets
        = .error (.InvalidHistogramBuckets msg) := by
      rcases validate_buckets_err buckets none with hok | hinv
      · have := (validate_buckets_ok_iff buckets).mp hok
        rw [this] at hfalse
        exact absurd hfalse (by simp)
      · rcases hv : validate_buckets_from none buckets with e | u
        · rw [hv] at hinv
          cases e with
          | RegistrationError m => simp [isInvalidBucketsError] at hinv
          | InvalidNamingConvention m => simp [isInvalidBucketsError] at hinv
          | InvalidHistogramBuckets m => exact ⟨m, hv⟩
        · rw [hv] at hinv
          simp [isInvalidBucketsError] at hinv
    obtain ⟨msg, hb⟩ := hmsg
    unfold PrometheusBackend.register_histogram
    rw [hname, hb]
    rfl
  · unfold PrometheusBackend.register_histogram
    rw [hn]
    norm_num [validate_histogram_buckets, validate_buckets_from, F64.isFinite, F64.lt,
      F64.le, isInvalidBucketsError]
  · unfold PrometheusBackend.register_histogram
    rw [hn]
    norm_num [validate_histogram_buckets, validate_buckets_from, F64.isFinite, F64.lt,
      F64.le, isInvalidBucketsError]
  · unfold PrometheusBackend.register_histogram
    rw [hn]
    norm_num [validate_histogram_buckets, validate_buckets_from, F64.isFinite, F64.lt,
      F64.le, isInvalidBucketsError]
  · unfold PrometheusBackend.register_histogram
    rw [hn]
    norm_num [validate_histogram_buckets, validate_buckets_from, exceptIsOk]

/-- Concrete instantiation of claim C2 discharging its hypothesis with
the valid name "h". -/
theorem C2_prometheus_bucket_validation_witness :
    validate_prometheus_metric_name "h" = .ok ()
    ∧ isInvalidBucketsError (PrometheusBackend.register_histogram Registry.new "h" "help"
        [.finite 1, .finite 0.5, .finite 2]).1 = true := by
  refine ⟨rfl, ?_⟩
  exact (C2_prometheus_bucket_validation Registry.new "h" "help"
    [.finite 1, .finite 0.5, .finite 2] rfl).2.2.1

/-- Claim C3: every failing registration call on the Prometheus backend
leaves the registry storage unchanged (all-or-nothing registration): when
the returned result is an error, the registry returned alongside it is
exactly the input registry. -/
theorem C3_registration_all_or_nothing (r : Registry) (name help : String)
    (buckets : List F64) :
    (exceptIsOk (PrometheusBackend.register_counter r name help).1 = false →
      (PrometheusBackend.register_counter r name help).2 = r)
    ∧ (exceptIsOk (PrometheusBackend.register_gauge r name help).1 = false →
      (PrometheusBackend.register_gauge r name help).2 = r)
    ∧ (exceptIsOk (PrometheusBackend.register_histogram r name help buckets).1 = false →
      (PrometheusBackend.register_histogram r name help buckets).2 = r) := by
  refine ⟨?_, ?_, ?_⟩
  · intro h
    unfold PrometheusBackend.register_counter at *
    rcases hv : validate_prometheus_metric_name name with e | u
    · rfl
    · rw [hv] at h
      obtain ⟨⟩ := u
      simp [exceptIsOk] at h
  · intro h
    unfold PrometheusBackend.register_gauge at *
    rcases hv : validate_prometheus_metric_name name with e | u
    · rfl
    · rw [hv] at h
      obtain ⟨⟩ := u
      simp [exceptIsOk] at h
  · intro h
    unfold PrometheusBackend.register_histogram at *
    rcases hv : validate_prometheus_metric_name name with e | u
    · rfl
    · rw [hv] at h
      obtain ⟨⟩ := u
      rcases hb : validate_histogram_buckets buckets with e | u
      · rfl
      · rw [hb] at h
        obtain ⟨⟩ := u
        simp [exceptIsOk] at h

/-- Concrete instantiation of claim C3 at the invalid name "123bad". -/
theorem C3_registration_all_or_nothing_witness :
    exceptIsOk (PrometheusBackend.register_counter Registry.new "123bad" "h").1 = false
    ∧ (PrometheusBackend.register_counter Registry.new "123bad" "h").2 = Registry.new := by
  refine ⟨rfl, ?_⟩
  exact (C3_registration_all_or_nothing Registry.new "123bad" "h" []).1 rfl

/-- `Metric<T>` of `core/metrics.rs`: an instrument plus immutable
identity metadata (name, description). -/
structure Metric (T : Type) where
  inner : T
  name : String
  description : String
deriving DecidableEq

/-- `Metric::new(name, description, inner)`: pure data assembly,
never fails. -/
def Metric.new {T : Type} (name description : String) (inner : T) : Metric T :=
  ⟨inner, name, description⟩

/-- The `CounterTrait` interface: operations of a counter instrument,
embedded as state transformers on the instrument state `T`. -/
structure CounterOps (T : Type) where
  inc : T → T
  inc_by : T → Nat → T
  get : T → Nat

/-- The `GaugeTrait` interface. -/
structure GaugeOps (T : Type) where
  set : T → Int → T
  inc : T → T
  inc_by : T → Int → T
  dec : T → T
  dec_by : T → Int → T
  get : T → Int

/-- Default body of `HistogramTrait::get_histogram`: returns `(0.0, 0)`
for backends that do not support reading. -/
def HistogramTrait.get_histogram_default {T : Type} (_ : T) : F64 × Nat :=
  (.finite 0, 0)

/-- The `HistogramTrait` interface; `get_histogram` is the trait method,
which an implementation may leave at its default. -/
structure HistogramOps (T : Type) where
  observe : T → F64 → T
  get_histogram : T → F64 × Nat

/-- Counter operations of `Metric<T: CounterTrait>`, delegated to the
inner instrument; the identity fields are untouched. -/
def Metric.inc {T : Type} (ops : CounterOps T) (m : Metric T) : Metric T :=
  { m with inner := ops.inc m.inner }

def Metric.inc_by {T : Type} (ops : CounterOps T) (m : Metric T) (value : Nat) : Metric T :=
  { m with inner := ops.inc_by m.inner value }

def Metric.get_counter {T : Type} (ops : CounterOps T) (m : Metric T) : Nat :=
  ops.get m.inner

/-- Gauge operations of `Metric<T: GaugeTrait>`, delegated to the inner
instrument. -/
def Metric.set {T : Type} (ops : GaugeOps T) (m : Metric T) (value : Int) : Metric T :=
  { m with inner := ops.set m.inner value }

def Metric.gauge_inc {T : Type} (ops : GaugeOps T) (m : Metric T) : Metric T :=
  { m with inner := ops.inc m.inner }

def Metric.gauge_inc_by {T : Type} (ops : GaugeOps T) (m : Metric T) (value : Int) : Metric T :=
  { m with inner := ops.inc_by m.inner value }

def Metric.dec {T : Type} (ops : GaugeOps T) (m : Metric T) : Metric T :=
  { m with inner := ops.dec m.inner }

def Metric.dec_by {T : Type} (ops : GaugeOps T) (m : Metric T) (value : Int) : Metric T :=
  { m with inner := ops.dec_by m.inner value }

def Metric.get_gauge {T : Type} (ops : GaugeOps T) (m : Metric T) : Int :=
  ops.get m.inner

/-- Histogram operations of `Metric<T: HistogramTrait>`, delegated to
the inner instrument. -/
def Metric.observe {T : Type} (ops : HistogramOps T) (m : Metric T) (value : F64) : Metric T :=
  { m with inner := ops.observe m.inner value }

def Metric.get_histogram {T : Type} (ops : HistogramOps T) (m : Metric T) : F64 × Nat :=
  ops.get_histogram m.inner

/-- The `MetricBackend` trait of `core/registry.rs`: what a concrete
backend must provide.  Registration takes `&mut Registry`, embedded as
returning the new registry alongside the result. -/
structure MetricBackend (R C G H E : Type) where
  create_registry : R
  register_counter : R → String → String → Except E C × R
  register_gauge : R → String → String → Except E G × R
  register_histogram : R → String → String → List F64 → Except E H × R

/-- `ObservabilityRegistry::new`. -/
def ObservabilityRegistry.new {R C G H E : Type} (B : MetricBackend R C G H E) : R :=
  B.create_registry

/-- `ObservabilityRegistry::counter(name, help)`: delegates to the
backend, propagates its error (`?`), wraps a success into `Metric::new`. -/
def ObservabilityRegistry.counter {R C G H E : Type} (B : MetricBackend R C G H E)
    (reg : R) (name help : String) : Except E (Metric C) × R :=
  match B.register_counter reg name help with
  | (.error e, r) => (.error e, r)
  | (.ok c, r) => (.ok (Metric.new name help c), r)

/-- `ObservabilityRegistry::gauge(name, help)`. -/
def ObservabilityRegistry.gauge {R C G H E : Type} (B : MetricBackend R C G H E)
    (reg : R) (name help : String) : Except E (Metric G) × R :=
  match B.register_gauge reg name help with
  | (.error e, r) => (.error e, r)
  | (.ok g, r) => (.ok (Metric.new name help g), r)

/-- `ObservabilityRegistry::histogram_with_buckets(name, help, buckets)`. -/
def ObservabilityRegistry.histogram_with_buckets {R C G H E : Type}
    (B : MetricBackend R C G H E) (reg : R) (name help : String) (buckets : List F64) :
    Except E (Metric H) × R :=
  match B.register_histogram reg name help buckets with
  | (.error e, r) => (.error e, r)
  | (.ok h, r) => (.ok (Metric.new name help h), r)

/-- `ObservabilityRegistry::histogram(name, help)`: delegates to
`histogram_with_buckets` with the inline default latency bucket list. -/
def ObservabilityRegistry.histogram {R C G H E : Type} (B : MetricBackend R C G H E)
    (reg : R) (name help : String) : Except E (Metric H) × R :=
  ObservabilityRegistry.histogram_with_buckets B reg name help
    [.finite 0.005, .finite 0.01, .finite 0.025, .finite 0.05, .finite 0.1, .finite 0.25,
      .finite 0.5, .finite 1.0, .finite 2.5, .finite 5.0, .finite 10.0]

/-- The `MetricBackend` implementation of `PrometheusBackend`. -/
def PrometheusBackend.backend : MetricBackend Registry Nat Int PromHistogram PrometheusError :=
  ⟨Registry.new, PrometheusBackend.register_counter, PrometheusBackend.register_gauge,
    PrometheusBackend.register_histogram⟩

/-- Claim C4: `ObservabilityRegistry::counter` (and `gauge`,
`histogram_with_buckets`) delegates to the backend registration, returns
a backend error unchanged, and wraps a returned handle into a `Metric`
whose `name()` and `description()` are exactly the call arguments and
whose inner instrument is exactly the returned handle; the wrapping
itself (`Metric::new`) is pure data assembly and never fails. -/
theorem C4_registry_wraps_backend {R C G H E : Type} (B : MetricBackend R C G H E)
    (reg : R) (name help : String) :
    (∀ (e : E) (r2 : R), B.register_counter reg name help = (.error e, r2) →
      ObservabilityRegistry.counter B reg name help = (.error e, r2))
    ∧ (∀ (c : C) (r2 : R), B.register_counter reg name help = (.ok c, r2) →
      ObservabilityRegistry.counter B reg name help = (.ok (Metric.new name help c), r2))
    ∧ (∀ (e : E) (r2 : R), B.register_gauge reg name help = (.error e, r2) →
      ObservabilityRegistry.gauge B reg name help = (.error e, r2))
    ∧ (∀ (g : G) (r2 : R), B.register_gauge reg name help = (.ok g, r2) →
      ObservabilityRegistry.gauge B reg name help = (.ok (Metric.new name help g), r2))
    ∧ (∀ (buckets : List F64) (e : E) (r2 : R),
        B.register_histogram reg name help buckets = (.error e, r2) →
      ObservabilityRegistry.histogram_with_buckets B reg name help buckets = (.error e, r2))
    ∧ (∀ (buckets : List F64) (h : H) (r2 : R),
        B.register_histogram reg name help buckets = (.ok h, r2) →
      ObservabilityRegistry.histogram_with_buckets B reg name help buckets
        = (.ok (Metric.new name help h), r2))
    ∧ (∀ (T : Type) (n d : String) (i : T),
      (Metric.new n d i).name = n ∧ (Metric.new n d i).description = d
        ∧ (Metric.new n d i).inner = i) := by
  refine ⟨?_, ?_, ?_, ?_, ?_, ?_, ?_⟩
  · intro e r2 h
    unfold ObservabilityRegistry.counter
    rw [h]
  · intro c r2 h
    unfold ObservabilityRegistry.counter
    rw [h]
  · intro e r2 h
    unfold ObservabilityRegistry.gauge
    rw [h]
  · intro g r2 h
    unfold ObservabilityRegistry.gauge
    rw [h]
  · intro buckets e r2 h
    unfold ObservabilityRegistry.histogram_with_buckets
    rw [h]
  · intro buckets h r2 hcall
    unfold ObservabilityRegistry.histogram_with_buckets
    rw [hcall]
  · intro T n d i
    exact ⟨rfl, rfl, rfl⟩

/-- Concrete instantiation of claim C4 on the Prometheus backend: an
error case (empty name) and a success case (name "a"). -/
theorem C4_registry_wraps_backend_witness :
    ObservabilityRegistry.counter PrometheusBackend.backend Registry.new "" "h"
      = (.error (.InvalidNamingConvention "metric name cannot be empty"), Registry.new)
    ∧ ObservabilityRegistry.counter PrometheusBackend.backend Registry.new "a" "h"
      = (.ok (Metric.new "a" "h" 0),
          Registry.new.register "a" "h" (.counter 0)) := by
  constructor
  · exact (C4_registry_wraps_backend PrometheusBackend.backend Registry.new "" "h").1
      (.InvalidNamingConvention "metric name cannot be empty") Registry.new rfl
  · exact (C4_registry_wraps_backend PrometheusBackend.backend Registry.new "a" "h").2.1
      0 (Registry.new.register "a" "h" (.counter 0)) rfl

/-- The 11-bucket default latency list, as documented by the spec
(seconds, 5ms to 10s). -/
def specDefaultLatencyBuckets : List F64 :=
  [.finite 0.005, .finite 0.01, .finite 0.025, .finite 0.05, .finite 0.1, .finite 0.25,
    .finite 0.5, .finite 1.0, .finite 2.5, .finite 5.0, .finite 10.0]

/-- Claim C5: `ObservabilityRegistry::histogram(name, help)` equals
`histogram_with_buckets(name, help, buckets)` with `buckets` exactly the
11-element default latency list
`[0.005, 0.01, 0.025, 0.05, 0.1, 0.25, 0.5, 1.0, 2.5, 5.0, 10.0]`. -/
theorem C5_default_histogram_buckets {R C G H E : Type} (B : MetricBackend R C G H E)
    (reg : R) (name help : String) :
    ObservabilityRegistry.histogram B reg name help
      = ObservabilityRegistry.histogram_with_buckets B reg name help specDefaultLatencyBuckets
    ∧ specDefaultLatencyBuckets
      = [.finite 0.005, .finite 0.01, .finite 0.025, .finite 0.05, .finite 0.1, .finite 0.25,
          .finite 0.5, .finite 1.0, .finite 2.5, .finite 5.0, .finite 10.0]
    ∧ specDefaultLatencyBuckets.length = 11 :=
  ⟨rfl, rfl, rfl⟩

/-- Claim C9: the identity metadata of a `Metric` wrapper is exactly the
construction arguments, and no delegated capability operation (counter
inc/inc_by, gauge set/inc/inc_by/dec/dec_by, histogram observe) changes
what `name()` or `description()` return; reads return values and leave
the wrapper untouched by construction. -/
theorem C9_metric_identity_immutable :
    (∀ (T : Type) (n d : String) (i : T),
      (Metric.new n d i).name = n ∧ (Metric.new n d i).description = d)
    ∧ (∀ (T : Type) (ops : CounterOps T) (m : Metric T) (v : Nat),
      (Metric.inc ops m).name = m.name ∧ (Metric.inc ops m).description = m.description
      ∧ (Metric.inc_by ops m v).name = m.name
      ∧ (Metric.inc_by ops m v).description = m.description)
    ∧ (∀ (T : Type) (ops : GaugeOps T) (m : Metric T) (v : Int),
      (Metric.set ops m v).name = m.name ∧ (Metric.set ops m v).description = m.description
      ∧ (Metric.gauge_inc ops m).name = m.name
      ∧ (Metric.gauge_inc ops m).description = m.description
      ∧ (Metric.gauge_inc_by ops m v).name = m.name
      ∧ (Metric.gauge_inc_by ops m v).description = m.description
      ∧ (Metric.dec ops m).name = m.name ∧ (Metric.dec ops m).description = m.description
      ∧ (Metric.dec_by ops m v).name = m.name
      ∧ (Metric.dec_by ops m v).description = m.description)
    ∧ (∀ (T : Type) (ops : HistogramOps T) (m : Metric T) (v : F64),
      (Metric.observe ops m v).name = m.name
      ∧ (Metric.observe ops m v).description = m.description) :=
  ⟨fun _ _ _ _ => ⟨rfl, rfl⟩,
   fun _ _ _ _ => ⟨rfl, rfl, rfl, rfl⟩,
   fun _ _ _ _ => ⟨rfl, rfl, rfl, rfl, rfl, rfl, rfl, rfl, rfl, rfl⟩,
   fun _ _ _ _ => ⟨rfl, rfl⟩⟩

/-- The wrap-around modulus of Rust's 64-bit atomics. -/
def U64_MOD : Nat := 2 ^ 64

/-- `MockCounter`: an `Arc<AtomicU64>` starting at 0; `fetch_add` wraps
around on overflow.  The state is the stored unsigned value. -/
def MockCounter.new : Nat := 0

/-- `MockCounter::inc` (`fetch_add(1, Relaxed)`). -/
def MockCounter.inc (s : Nat) : Nat := (s + 1) % U64_MOD

/-- `MockCounter::inc_by` (`fetch_add(value, Relaxed)`). -/
def MockCounter.inc_by (s : Nat) (value : Nat) : Nat := (s + value) % U64_MOD

/-- `MockCounter::get` (`load(Relaxed)`). -/
def MockCounter.get (s : Nat) : Nat := s

/-- Calling `inc()` k times in sequence. -/
def MockCounter.incTimes (s : Nat) : Nat → Nat
  | 0 => s
  | k + 1 => MockCounter.incTimes (MockCounter.inc s) k

theorem mockCounter_incTimes_eq (k : Nat) : ∀ s : Nat, s < U64_MOD →
    MockCounter.incTimes s k = (s + k) % U64_MOD := by
  have hpos : 0 < U64_MOD := by unfold U64_MOD; positivity
  induction k with
  | zero =>
    intro s hs
    unfold MockCounter.incTimes
    unfold U64_MOD at hs ⊢
    omega
  | succ k ih =>
    intro s hs
    show MockCounter.incTimes (MockCounter.inc s) k = (s + (k + 1)) % U64_MOD
    rw [ih (MockCounter.inc s) (Nat.mod_lt _ hpos)]
    unfold MockCounter.inc
    rw [Nat.mod_add_mod]
    ring_nf

/-- Claim C6: a fresh mock counter incremented by n reads back exactly n
(for any representable n); calling `inc()` k times equals a single
`inc_by(k)`; and `inc_by(0)` is a no-op on any representable state. -/
theorem C6_mock_counter_arithmetic (n k s : Nat) :
    (n < U64_MOD → MockCounter.get (MockCounter.inc_by MockCounter.new n) = n)
    ∧ MockCounter.get (MockCounter.incTimes MockCounter.new k)
        = MockCounter.get (MockCounter.inc_by MockCounter.new k)
    ∧ (s < U64_MOD → MockCounter.inc_by s 0 = s) := by
  have hpos : 0 < U64_MOD := by unfold U64_MOD; positivity
  refine ⟨?_, ?_, ?_⟩
  · intro hn
    unfold MockCounter.get MockCounter.inc_by MockCounter.new
    unfold U64_MOD at hn ⊢
    omega
  · rw [mockCounter_incTimes_eq k MockCounter.new hpos]
    unfold MockCounter.get MockCounter.inc_by MockCounter.new
    rfl
  · intro hs
    unfold MockCounter.inc_by
    unfold U64_MOD at hs ⊢
    omega

/-- Concrete instantiation of claim C6 at n = 5, k = 3, s = 7. -/
theorem C6_mock_counter_arithmetic_witness :
    MockCounter.get (MockCounter.inc_by MockCounter.new 5) = 5
    ∧ MockCounter.get (MockCounter.incTimes MockCounter.new 3)
        = MockCounter.get (MockCounter.inc_by MockCounter.new 3)
    ∧ MockCounter.inc_by 7 0 = 7 :=
  ⟨(C6_mock_counter_arithmetic 5 3 7).1 (by decide),
   (C6_mock_counter_arithmetic 5 3 7).2.1,
   (C6_mock_counter_arithmetic 5 3 7).2.2 (by decide)⟩

/-- Two's-complement wrap-around of a 64-bit signed integer, the effect
of `AtomicI64::fetch_add`/`fetch_sub` on overflow. -/
def wrap64 (x : Int) : Int := (x + 2 ^ 63) % 2 ^ 64 - 2 ^ 63

/-- `MockGauge`: an `Arc<AtomicI64>` starting at 0. -/
def MockGauge.new : Int := 0

/-- `MockGauge::set` (`store(value, Relaxed)`). -/
def MockGauge.set (_ : Int) (value : Int) : Int := value

/-- `MockGauge::inc` (`fetch_add(1, Relaxed)`, wrapping). -/
def MockGauge.inc (s : Int) : Int := wrap64 (s + 1)

/-- `MockGauge::inc_by` (`fetch_add(value, Relaxed)`, wrapping). -/
def MockGauge.inc_by (s : Int) (value : Int) : Int := wrap64 (s + value)

/-- `MockGauge::dec` (`fetch_sub(1, Relaxed)`, wrapping). -/
def MockGauge.dec (s : Int) : Int := wrap64 (s - 1)

/-- `MockGauge::dec_by` (`fetch_sub(value, Relaxed)`, wrapping). -/
def MockGauge.dec_by (s : Int) (value : Int) : Int := wrap64 (s - value)

/-- `MockGauge::get` (`load(Relaxed)`). -/
def MockGauge.get (s : Int) : Int := s

/-- One operation of a gauge call sequence. -/
inductive GaugeOp where
  | set : Int → GaugeOp
  | inc : GaugeOp
  | incBy : Int → GaugeOp
  | dec : GaugeOp
  | decBy : Int → GaugeOp
deriving DecidableEq

/-- An operation argument is representable as an `i64`. -/
def GaugeOp.valid : GaugeOp → Bool
  | .set v => (-(2 ^ 63) ≤ v) && (v < 2 ^ 63)
  | .incBy v => (-(2 ^ 63) ≤ v) && (v < 2 ^ 63)
  | .decBy v => (-(2 ^ 63) ≤ v) && (v < 2 ^ 63)
  | _ => true

/-- Apply one operation to the mock gauge state. -/
def MockGauge.applyOp (s : Int) : GaugeOp → Int
  | .set v => MockGauge.set s v
  | .inc => MockGauge.inc s
  | .incBy v => MockGauge.inc_by s v
  | .dec => MockGauge.dec s
  | .decBy v => MockGauge.dec_by s v

/-- Apply a whole call sequence in order. -/
def MockGauge.runOps (s : Int) (ops : List GaugeOp) : Int :=
  ops.foldl MockGauge.applyOp s

/-- Spec-side pure arithmetic effect of one operation: `set` replaces,
`inc`/`inc_by` add, `dec`/`dec_by` subtract, without any wrapping. -/
def GaugeOp.effect (s : Int) : GaugeOp → Int
  | .set v => v
  | .inc => s + 1
  | .incBy v => s + v
  | .dec => s - 1
  | .decBy v => s - v

/-- Spec-side arithmetic result of a call sequence applied in order. -/
def specGaugeResult (s : Int) (ops : List GaugeOp) : Int :=
  ops.foldl GaugeOp.effect s

theorem wrap64_range (x : Int) : -(2 ^ 63) ≤ wrap64 x ∧ wrap64 x < 2 ^ 63 := by
  unfold wrap64
  constructor <;> omega

theorem wrap64_fixed (x : Int) (h1 : -(2 ^ 63) ≤ x) (h2 : x < 2 ^ 63) : wrap64 x = x := by
  unfold wrap64
  omega

theorem wrap64_add_congr (t v : Int) : wrap64 (wrap64 t + v) = wrap64 (t + v) := by
  unfold wrap64
  omega

theorem wrap64_sub_congr (t v : Int) : wrap64 (wrap64 t - v) = wrap64 (t - v) := by
  unfold wrap64
  omega

/-- A step of the mock gauge agrees, modulo two's-complement wrapping,
with the pure arithmetic effect. -/
theorem mockGauge_applyOp_wrap (t : Int) (op : GaugeOp) (hv : op.valid = true) :
    MockGauge.applyOp (wrap64 t) op = wrap64 (GaugeOp.effect t op) := by
  cases op with
  | set v =>
    simp only [GaugeOp.valid, Bool.and_eq_true, decide_eq_true_eq] at hv
    show v = wrap64 v
    exact (wrap64_fixed v hv.1 hv.2).symm
  | inc => exact wrap64_add_congr t 1
  | incBy v => exact wrap64_add_congr t v
  | dec => exact wrap64_sub_congr t 1
  | decBy v => exact wrap64_sub_congr t v

theorem mockGauge_runOps_wrap (ops : List GaugeOp) : ∀ t : Int,
    ops.all GaugeOp.valid = true →
    MockGauge.runOps (wrap64 t) ops = wrap64 (specGaugeResult t ops) := by
  induction ops with
  | nil => intro t _; rfl
  | cons op ops ih =>
    intro t hall
    simp only [List.all_cons, Bool.and_eq_true] at hall
    show MockGauge.runOps (MockGauge.applyOp (wrap64 t) op) ops
      = wrap64 (specGaugeResult (GaugeOp.effect t op) ops)
    rw [mockGauge_applyOp_wrap t op hall.1]
    exact ih (GaugeOp.effect t op) hall.2

/-- Claim C7: for every finite sequence of set/inc/inc_by/dec/dec_by
operations (with i64-representable arguments) applied in order to a
fresh mock gauge, the final `get` equals the pure arithmetic result of
the effects applied in order, reduced by two's-complement wrapping; the
result is always i64-representable (no panic, consistent wrapping). -/
theorem C7_mock_gauge_sequences (ops : List GaugeOp)
    (hall : ops.all GaugeOp.valid = true) :
    MockGauge.get (MockGauge.runOps MockGauge.new ops) = wrap64 (specGaugeResult 0 ops)
    ∧ -(2 ^ 63) ≤ MockGauge.runOps MockGauge.new ops
    ∧ MockGauge.runOps MockGauge.new ops < 2 ^ 63 := by
  have h0 : MockGauge.new = wrap64 0 := by
    unfold MockGauge.new
    exact (wrap64_fixed 0 (by norm_num) (by norm_num)).symm
  have hrun : MockGauge.runOps MockGauge.new ops = wrap64 (specGaugeResult 0 ops) := by
    rw [h0]
    exact mockGauge_runOps_wrap ops 0 hall
  refine ⟨hrun, ?_, ?_⟩
  · rw [hrun]; exact (wrap64_range _).1
  · rw [hrun]; exact (wrap64_range _).2

/-- Concrete instantiation of claim C7 on the sequence
`set 5; inc; dec_by 3`. -/
theorem C7_mock_gauge_sequences_witness :
    ([GaugeOp.set 5, GaugeOp.inc, GaugeOp.decBy 3].all GaugeOp.valid = true)
    ∧ MockGauge.get (MockGauge.runOps MockGauge.new
        [GaugeOp.set 5, GaugeOp.inc, GaugeOp.decBy 3])
      = wrap64 (specGaugeResult 0 [GaugeOp.set 5, GaugeOp.inc, GaugeOp.decBy 3]) :=
  ⟨by decide, (C7_mock_gauge_sequences
      [GaugeOp.set 5, GaugeOp.inc, GaugeOp.decBy 3] (by decide)).1⟩

/-- `impl HistogramTrait for Histogram` in the Prometheus backend: only
`observe` is provided; `get_histogram` is NOT overridden, so it is the
trait's default body. -/
def PromHistogram.ops : HistogramOps PromHistogram :=
  ⟨PromHistogram.observe, HistogramTrait.get_histogram_default⟩

/-- Observe a whole sequence of values in order. -/
def PromHistogram.observeAll (h : PromHistogram) (vs : List F64) : PromHistogram :=
  vs.foldl PromHistogram.observe h

/-- Claim C8: for a histogram whose backend does not override the default
reader — in particular the Prometheus histogram — `get_histogram()`
returns exactly `(0.0, 0)` no matter how many observations were made,
both on the raw instrument and through the `Metric` wrapper. -/
theorem C8_histogram_default_read (buckets vs : List F64) (name help : String) :
    PromHistogram.ops.get_histogram
        (PromHistogram.observeAll (PromHistogram.new buckets) vs) = (.finite 0, 0)
    ∧ Metric.get_histogram PromHistogram.ops
        (Metric.new name help (PromHistogram.observeAll (PromHistogram.new buckets) vs))
      = (.finite 0, 0)
    ∧ ∀ (T : Type) (x : T), HistogramTrait.get_histogram_default x = (.finite 0, 0) :=
  ⟨rfl, rfl, fun _ _ => rfl⟩

/-- `MockHistogram`: records all observations in order in a
`Mutex<Vec<f64>>`.  The state is the list of recorded values. -/
def MockHistogram.new : List F64 := []

/-- `MockHistogram::observe` (`push(value)`): never fails, never drops. -/
def MockHistogram.observe (h : List F64) (value : F64) : List F64 := h ++ [value]

/-- `MockHistogram::observations`: all recorded observations. -/
def MockHistogram.observations (h : List F64) : List F64 := h

/-- `MockHistogram::count`: the number of observations. -/
def MockHistogram.count (h : List F64) : Nat := h.length

/-- Observe a whole sequence of values in order. -/
def MockHistogram.observeAll (h : List F64) (vs : List F64) : List F64 :=
  vs.foldl MockHistogram.observe h

theorem mockHistogram_observeAll_eq (vs : List F64) : ∀ h : List F64,
    MockHistogram.observeAll h vs = h ++ vs := by
  induction vs with
  | nil => intro h; simp [MockHistogram.observeAll]
  | cons v vs ih =>
    intro h
    show MockHistogram.observeAll (MockHistogram.observe h v) vs = h ++ v :: vs
    rw [ih (MockHistogram.observe h v)]
    simp [MockHistogram.observe]

/-- Claim C10: observing any finite sequence of values v1..vn (NaN and
the infinities included) on a fresh `MockHistogram` never fails and never
drops a value: `observations()` returns exactly `[v1, ..., vn]` in order
and `count()` returns exactly n. -/
theorem C10_mock_histogram_records_all (vs : List F64) :
    MockHistogram.observations (MockHistogram.observeAll MockHistogram.new vs) = vs
    ∧ MockHistogram.count (MockHistogram.observeAll MockHistogram.new vs) = vs.length
    ∧ MockHistogram.observations
        (MockHistogram.observeAll MockHistogram.new [.nan, .posInf, .negInf])
      = [.nan, .posInf, .negInf] := by
  have h := mockHistogram_observeAll_eq vs MockHistogram.new
  refine ⟨?_, ?_, rfl⟩
  · rw [MockHistogram.observations, h]
    rfl
  · rw [MockHistogram.count, h]
    rfl
